import Mathlib

/-!
Shallow embedding of the core of the Ruschm Scheme interpreter: the parser
(src/src/parser/parser.rs) and the `base` built-in library
(src/src/interpreter/scheme/base.rs), together with the parts of the
surrounding data model (tokens, located AST nodes, errors, numbers, values)
that those two files use.  Definitions follow the Rust source structure and
names; items that live outside the two source files (the lexer's token type,
`Located`, `SchemeError`, the `Number`/`Value` model) are modelled from the
specification and carry a doc comment saying so.
-/

namespace Ruschm

/-- Error kinds, from the repository's error module as described in spec §7:
`Syntax` for parser errors, `Logic` for built-in / number-model errors. -/
inductive ErrorType where
  | Syntax
  | Logic
deriving DecidableEq

/-- Modelled from the spec (§7): `SchemeError` lives outside src/.  Errors
compare by kind, message string and optional source location. -/
structure SchemeError where
  category : ErrorType
  message : String
  location : Option (Nat × Nat)
deriving DecidableEq

/-- The `syntax_error!` macro: a `Syntax` error at the given location. -/
def syntaxError (location : Option (Nat × Nat)) (message : String) : SchemeError :=
  ⟨ ErrorType.Syntax, message, location⟩

/-- The `logic_error!` macro: a `Logic` error with no location. -/
def logicError (message : String) : SchemeError :=
  ⟨ ErrorType.Logic, message, none⟩

/-- Modelled from the spec (§3): the lexer's `TokenData` lives outside src/.
The variants are exactly those the spec lists as relevant; i32/u32 payloads
are modelled by Int/Nat (no claim depends on machine-width overflow). -/
inductive TokenData where
  | Boolean (b : Bool)
  | Integer (n : Int)
  | Real (s : String)
  | Rational (n : Int) (d : Nat)
  | Identifier (s : String)
  | Character (c : Char)
  | String (s : String)
  | LeftParen
  | RightParen
  | VecConsIntro
  | Quote
  | Period
deriving DecidableEq

/-- Modelled from the spec (§3): a token is its data plus an optional
source location `[line, column]`. -/
structure Token where
  data : TokenData
  location : Option (Nat × Nat)
deriving DecidableEq

/-- Modelled from the lexer's `Display` for `TokenData` (outside src/), used
only inside error-message payloads that no claim depends on. -/
def fmtTokenData : TokenData → String
  | .Boolean true => "#t"
  | .Boolean false => "#f"
  | .Integer n => toString n
  | .Real s => s
  | .Rational n d => toString n ++ "/" ++ toString d
  | .Identifier s => s
  | .Character c => "#\\" ++ String.singleton c
  | .String s => "\"" ++ s ++ "\""
  | .LeftParen => "("
  | .RightParen => ")"
  | .VecConsIntro => "#("
  | .Quote => "'"
  | .Period => "."

/-- Modelled from the spec (§3): `Located<T>` pairs data with an optional
source location. -/
structure Located (T : Type) where
  data : T
  location : Option (Nat × Nat)
deriving DecidableEq

/-- Modelled from the spec (§3): the `from_data` helper constructs a located
node with no location ("location may be absent"). -/
def Located.from_data {T : Type} (data : T) : Located T :=
  ⟨data, none⟩

/-- `ParameterFormals(pub Vec<String>, pub Option<String>)`
(parser.rs line 114): `fixed` is field `.0`, `variadic` is field `.1`. -/
structure ParameterFormals where
  fixed : List String
  variadic : Option String
deriving DecidableEq

/-- `ParameterFormals::new()` (parser.rs lines 116-120). -/
def ParameterFormals.new : ParameterFormals :=
  ⟨[], none⟩

mutual

/-- `ExpressionBody` (parser.rs lines 51-68).  `Box`es are dropped (Lean
inductives own their children); the boxed triple inside `Conditional` is
flattened into three constructor fields. -/
inductive ExpressionBody where
  | Identifier (s : String)
  | Integer (n : Int)
  | Boolean (b : Bool)
  | Real (s : String)
  | Rational (n : Int) (d : Nat)
  | Character (c : Char)
  | String (s : String)
  | Period
  | List (elems : List (Located ExpressionBody))
  | Vector (elems : List (Located ExpressionBody))
  | Assignment (name : String) (value : Located ExpressionBody)
  | Procedure (p : SchemeProcedure)
  | ProcedureCall (operator : Located ExpressionBody) (arguments : List (Located ExpressionBody))
  | Conditional (test : Located ExpressionBody) (consequent : Located ExpressionBody)
      (alternative : Option (Located ExpressionBody))
  | Quote (inner : Located ExpressionBody)

/-- `SchemeProcedure(pub ParameterFormals, pub Vec<Definition>, pub Vec<Expression>)`
(parser.rs lines 137-142). -/
inductive SchemeProcedure where
  | mk (formals : ParameterFormals) (definitions : List (Located DefinitionBody))
      (expressions : List (Located ExpressionBody))

/-- `DefinitionBody(pub String, pub Expression)` (parser.rs line 36). -/
inductive DefinitionBody where
  | mk (name : String) (value : Located ExpressionBody)

end

/-- `pub type Expression = Located<ExpressionBody>` (parser.rs line 50). -/
abbrev Expression := Located ExpressionBody

/-- `pub type Definition = Located<DefinitionBody>` (parser.rs line 38). -/
abbrev Definition := Located DefinitionBody

/-- `ImportSetBody` (parser.rs lines 41-48). -/
inductive ImportSetBody where
  | Direct (libname : String)
  | Only (inner : Located ImportSetBody) (names : List String)
  | Except (inner : Located ImportSetBody) (names : List String)
  | Prefix (inner : Located ImportSetBody) (name : String)
  | Rename (inner : Located ImportSetBody) (pairs : List (String × String))

/-- `pub type ImportSet = Located<ImportSetBody>` (parser.rs line 39). -/
abbrev ImportSet := Located ImportSetBody

/-- `Statement` (parser.rs lines 17-21). -/
inductive Statement where
  | ImportDeclaration (sets : List (Located ImportSetBody))
  | Definition (d : Located DefinitionBody)
  | Expression (e : Located ExpressionBody)

/-- `join_displayable` (parser.rs lines 12-14): join rendered items with a
single space. -/
def join_displayable (parts : List String) : String :=
  String.intercalate " " parts

/-- `impl Display for ParameterFormals` (parser.rs lines 122-135). -/
def fmtParameterFormals (p : ParameterFormals) : String :=
  match p.fixed.length with
  | 0 =>
    match p.variadic with
    | none => "()"
    | some variadic => variadic
  | _ + 1 =>
    match p.variadic with
    | some last => "(" ++ String.intercalate " " p.fixed ++ " . " ++ last ++ ")"
    | none => "(" ++ String.intercalate " " p.fixed ++ ")"

/-- `impl Display for SchemeProcedure` (parser.rs lines 144-149): only the
formals are printed. -/
def fmtSchemeProcedure : SchemeProcedure → String
  | .mk formals _ _ => "(lambda " ++ fmtParameterFormals formals ++ ")"

/-- Helper for `rustF64Accepts`: one or more ASCII digits. -/
def digitsOnly (cs : List Char) : Bool :=
  cs.all Char.isDigit

/-- Helper for `rustF64Accepts`: exponent body after `e`/`E`, i.e. an
optional sign followed by at least one digit. -/
def expPartOk : List Char → Bool
  | [] => false
  | c :: rest =>
    if c = '+' || c = '-' then !rest.isEmpty && digitsOnly rest
    else digitsOnly (c :: rest)

/-- Helper for `rustF64Accepts`: a mantissa, i.e. `Digit+`, `Digit+ '.' Digit*`,
or `'.' Digit+`. -/
def mantissaOk (cs : List Char) : Bool :=
  let intPart := cs.takeWhile Char.isDigit
  match cs.drop intPart.length with
  | [] => !intPart.isEmpty
  | '.' :: frac => digitsOnly frac && (!intPart.isEmpty || !frac.isEmpty)
  | _ => false

/-- Helper for `rustF64Accepts`: mantissa with an optional exponent. -/
def numberPartOk (cs : List Char) : Bool :=
  match cs.span (fun c => c != 'e' && c != 'E') with
  | (mant, []) => mantissaOk mant
  | (mant, _ :: exp) => mantissaOk mant && expPartOk exp

/-- Modelled from the documented grammar of Rust std's `f64: FromStr`
(external to this repository), which `ExpressionBody::fmt` invokes as
`n.parse::<f64>()` and then unwraps (parser.rs line 76): an optional sign,
then either a case-insensitive `inf` / `infinity` / `nan` keyword or a
decimal mantissa with optional exponent.  `false` means `parse` returns
`Err` and the `unwrap` panics. -/
def rustF64Accepts (s : String) : Bool :=
  let cs := s.toList
  let body :=
    match cs with
    | c :: rest => if c = '+' || c = '-' then rest else cs
    | [] => []
  let lower := body.map Char.toLower
  if lower = ['i', 'n', 'f'] || lower = ['i', 'n', 'f', 'i', 'n', 'i', 't', 'y'] ||
      lower = ['n', 'a', 'n'] then
    true
  else
    numberPartOk body

/-- Modelled: the `{:?}` Debug rendering of the successfully parsed f64 is
abstracted as the stored text itself; no claim depends on the rendered
digits, only on whether formatting panics (`none`) or succeeds (`some`). -/
def realDebugText (s : String) : String :=
  s

mutual

/-- `impl fmt::Display for ExpressionBody` (parser.rs lines 71-111) as a
partial function: `none` models a panic.  The only panicking site in the
source is the `Real` arm, `write!(f, "{:?}", n.parse::<f64>().unwrap())`;
a panic inside a child node propagates outward, hence the `Option`
threading through the recursive arms. -/
def fmtExpressionBody : ExpressionBody → Option String
  | .Identifier s => some s
  | .Integer n => some (toString n)
  | .Real n => if rustF64Accepts n then some (realDebugText n) else none
  | .Rational a b => some (toString a ++ "/" ++ toString b)
  | .Period => some "."
  | .List list =>
    match fmtExpressionList list with
    | some parts => some ("(" ++ join_displayable parts ++ ")")
    | none => none
  | .Vector vec =>
    match fmtExpressionList vec with
    | some parts => some ("#(" ++ join_displayable parts ++ ")")
    | none => none
  | .Assignment name ⟨valueData, _⟩ =>
    match fmtExpressionBody valueData with
    | some v => some ("(set! " ++ name ++ " " ++ v ++ ")")
    | none => none
  | .Procedure p => some (fmtSchemeProcedure p)
  | .ProcedureCall ⟨opData, _⟩ args =>
    match fmtExpressionBody opData, fmtExpressionList args with
    | some o, some parts => some ("(" ++ o ++ " " ++ join_displayable parts ++ ")")
    | _, _ => none
  | .Conditional ⟨testData, _⟩ ⟨consequentData, _⟩ alternative =>
    match alternative with
    | some ⟨altData, _⟩ =>
      match fmtExpressionBody testData, fmtExpressionBody consequentData,
          fmtExpressionBody altData with
      | some t, some c, some a => some ("(" ++ t ++ " " ++ c ++ a ++ ")")
      | _, _, _ => none
    | none =>
      match fmtExpressionBody testData, fmtExpressionBody consequentData with
      | some t, some c => some ("(" ++ t ++ " " ++ c ++ ")")
      | _, _ => none
  | .Character c => some ("#\\" ++ String.singleton c)
  | .String s => some ("\"" ++ s ++ "\"")
  | .Quote ⟨datumData, _⟩ =>
    match fmtExpressionBody datumData with
    | some inner => some ("'" ++ inner)
    | none => none
  | .Boolean true => some "#t"
  | .Boolean false => some "#f"

/-- Rendering of a list of located expressions (the
`join_displayable(list.into_iter().map(|e| &e.data))` pattern). -/
def fmtExpressionList : List (Located ExpressionBody) → Option (List String)
  | [] => some []
  | ⟨d, _⟩ :: rest =>
    match fmtExpressionBody d, fmtExpressionList rest with
    | some s, some ss => some (s :: ss)
    | _, _ => none

end

/-- Parser state (parser.rs lines 151-155): the most recently consumed token,
the remaining token stream, and the current location.  The peekable lexer is
modelled as the plain list of the not-yet-consumed tokens; lexer errors are
absent because every claim concerns an error-free token stream. -/
structure ParserS where
  current : Option Token
  lexer : List Token
  location : Option (Nat × Nat)

/-- `Parser::from_lexer` (parser.rs lines 169-175). -/
def fromLexer (tokens : List Token) : ParserS :=
  ⟨none, tokens, none⟩

/-- `advance(count)` (parser.rs lines 638-645): discard `count - 1` tokens,
bind the next one as `current`, and mirror its location.  Infallible here
because the modelled token stream carries no lexer errors. -/
def advance (count : Nat) (s : ParserS) : Option Token × ParserS :=
  match s.lexer.drop (count - 1) with
  | [] => (none, ⟨none, [], none⟩)
  | t :: ts => (some t, ⟨some t, ts, t.location⟩)

/-- The `.take()` on `current` used throughout the parser: return the
current token and clear it. -/
def takeCurrent (s : ParserS) : Option Token × ParserS :=
  (s.current, { s with current := none })

/-- `peek_next_token` (parser.rs lines 647-655), infallible for the same
reason as `advance`. -/
def peekNextToken (s : ParserS) : Option Token :=
  s.lexer.head?

/-- Artifact of the embedding only: the Rust parser's unbounded loops and
recursion are bounded by a fuel parameter, and this error marks fuel
exhaustion.  Every theorem about a concrete run supplies ample fuel, so this
error never occurs in any proved statement. -/
def outOfFuel : SchemeError :=
  syntaxError none "parser fuel exhausted"

/-- `get_identifier` (parser.rs lines 279-288); reads `current` without
taking it. -/
def getIdentifier (s : ParserS) : Except SchemeError String :=
  match s.current with
  | some ⟨.Identifier ident, _⟩ => .ok ident
  | some ⟨o, _⟩ => .error (syntaxError s.location ("expect an identifier, got " ++ fmtTokenData o))
  | none => .error (syntaxError s.location "expect an identifier while encountered end of input")

/-- Modelled Debug rendering of an optional token payload, used only in the
`get_identifier_pair` error message that no claim depends on. -/
def debugOptionTokenData : Option TokenData → String
  | none => "None"
  | some d => "Some(" ++ fmtTokenData d ++ ")"

/-- Modelled Debug rendering of an optional statement, used only in the
`expect condition alternatives` error message payload that no claim depends
on (the Rust side prints the full derived `Debug` tree). -/
def debugShortStatement : Option Statement → String
  | none => "None"
  | some (Statement.ImportDeclaration _) => "Some(ImportDeclaration(..))"
  | some (Statement.Definition _) => "Some(Definition(..))"
  | some (Statement.Expression _) => "Some(Expression(..))"

/-- `get_identifier_pair` (parser.rs lines 290-312): takes `current` and the
next three tokens and matches the shape `( ident1 ident2 )`. -/
def getIdentifierPair (s : ParserS) : Except SchemeError ((String × String) × ParserS) :=
  let location := s.location
  let (p0, s) := takeCurrent s
  let (_, s) := advance 1 s
  let (p1, s) := takeCurrent s
  let (_, s) := advance 1 s
  let (p2, s) := takeCurrent s
  let (_, s) := advance 1 s
  let (p3, s) := takeCurrent s
  match p0.map Token.data, p1.map Token.data, p2.map Token.data, p3.map Token.data with
  | some .LeftParen, some (.Identifier ident1), some (.Identifier ident2), some .RightParen =>
    .ok ((ident1, ident2), s)
  | d0, d1, d2, d3 =>
    .error (syntaxError location
      ("expect an identifier pair: (ident1, ident2), got [" ++
        String.intercalate ", "
          [debugOptionTokenData d0, debugOptionTokenData d1,
            debugOptionTokenData d2, debugOptionTokenData d3] ++ "]"))

/-- The inner loop of `procedure_formals` (parser.rs lines 345-371),
accumulating into `formals`; fuel bounds the unbounded Rust `loop`. -/
def procedureFormalsLoop : Nat → ParserS → ParameterFormals →
    Except SchemeError (ParameterFormals × ParserS)
  | 0, _, _ => .error outOfFuel
  | fuel + 1, s, formals =>
    match peekNextToken s with
    | some ⟨.RightParen, _⟩ =>
      let (_, s) := advance 1 s
      .ok (formals, s)
    | some ⟨.Period, _⟩ =>
      if formals.fixed.length = 0 then
        .error (syntaxError s.location
          "must provide at least normal parameter before variadic parameter")
      else
        let (_, s) := advance 2 s
        match getIdentifier s with
        | .error e => .error e
        | .ok ident => procedureFormalsLoop fuel s { formals with variadic := some ident }
    | none => .error (syntaxError s.location "unexpect end of input")
    | some _ =>
      let (_, s) := advance 1 s
      match getIdentifier s with
      | .error e => .error e
      | .ok parameter =>
        procedureFormalsLoop fuel s { formals with fixed := formals.fixed ++ [parameter] }

/-- `procedure_formals` (parser.rs lines 345-371). -/
def procedureFormals (fuel : Nat) (s : ParserS) :
    Except SchemeError (ParameterFormals × ParserS) :=
  procedureFormalsLoop fuel s ParameterFormals.new

/-- The `collect(Self::get_identifier)` instantiation of the generic
`collect` loop (parser.rs lines 314-338). -/
def collectIdentifiers : Nat → ParserS → Except SchemeError (List String × ParserS)
  | 0, _ => .error outOfFuel
  | fuel + 1, s =>
    match peekNextToken s with
    | some ⟨.RightParen, _⟩ =>
      let (_, s) := advance 1 s
      .ok ([], s)
    | none => .error (syntaxError s.location "unexpect end of input")
    | some _ =>
      let (_, s) := advance 1 s
      match getIdentifier s with
      | .error e => .error e
      | .ok x =>
        match collectIdentifiers fuel s with
        | .ok (xs, s) => .ok (x :: xs, s)
        | .error e => .error e

/-- The `collect(Self::get_identifier_pair)` instantiation of the generic
`collect` loop (parser.rs lines 314-338). -/
def collectIdentifierPairs : Nat → ParserS →
    Except SchemeError (List (String × String) × ParserS)
  | 0, _ => .error outOfFuel
  | fuel + 1, s =>
    match peekNextToken s with
    | some ⟨.RightParen, _⟩ =>
      let (_, s) := advance 1 s
      .ok ([], s)
    | none => .error (syntaxError s.location "unexpect end of input")
    | some _ =>
      let (_, s) := advance 1 s
      match getIdentifierPair s with
      | .error e => .error e
      | .ok (x, s) =>
        match collectIdentifierPairs fuel s with
        | .ok (xs, s) => .ok (x :: xs, s)
        | .error e => .error e

/-- The partition loop inside `procedure_body` (parser.rs lines 417-435),
threading the two accumulator vectors exactly as the Rust `for` loop does. -/
def partitionStatements (loc : Option (Nat × Nat)) :
    List (Option Statement) → List Definition → List Expression →
    Except SchemeError (List Definition × List Expression)
  | [], definitions, expressions => .ok (definitions, expressions)
  | some (Statement.Definition def_) :: rest, definitions, expressions =>
    if expressions.isEmpty then
      partitionStatements loc rest (definitions ++ [def_]) expressions
    else
      .error (syntaxError loc "unexpect definition af expression")
  | some (Statement.Expression expr) :: rest, definitions, expressions =>
    partitionStatements loc rest definitions (expressions ++ [expr])
  | none :: _, _, _ => .error (syntaxError loc "lambda body empty")
  | some (Statement.ImportDeclaration _) :: _, _, _ =>
    .error (syntaxError loc "procedure body can only contains definition or expression")

/-- The partition loop of `procedure_body` together with the trailing
`expressions.is_empty()` check (parser.rs lines 417-438). -/
def partitionAndCheck (loc : Option (Nat × Nat)) (statements : List (Option Statement)) :
    Except SchemeError (List Definition × List Expression) :=
  match partitionStatements loc statements [] [] with
  | .error e => .error e
  | .ok (definitions, expressions) =>
    if expressions.isEmpty then
      .error (syntaxError loc "no expression in procedure body")
    else
      .ok (definitions, expressions)

mutual

/-- `parse` (parser.rs lines 273-276): advance one token, then parse it. -/
def parse : Nat → ParserS → Except SchemeError (Option Statement × ParserS)
  | 0, _ => .error outOfFuel
  | fuel + 1, s =>
    let (_, s) := advance 1 s
    parseCurrent fuel s

/-- `parse_current` (parser.rs lines 177-258): dispatch on the taken
`current` token. -/
def parseCurrent : Nat → ParserS → Except SchemeError (Option Statement × ParserS)
  | 0, _ => .error outOfFuel
  | fuel + 1, s =>
    match s.current with
    | none => .ok (none, s)
    | some ⟨data, location⟩ =>
      let s := { s with current := none }
      match data with
      | .Boolean b => .ok (some (Statement.Expression ⟨.Boolean b, location⟩), s)
      | .Integer a => .ok (some (Statement.Expression ⟨.Integer a, location⟩), s)
      | .Real a => .ok (some (Statement.Expression ⟨.Real a, location⟩), s)
      | .Rational a b => .ok (some (Statement.Expression ⟨.Rational a b, location⟩), s)
      | .Identifier a => .ok (some (Statement.Expression ⟨.Identifier a, location⟩), s)
      | .LeftParen =>
        match peekNextToken s with
        | some ⟨.Identifier ident, _⟩ =>
          if ident = "lambda" then
            match lambda fuel s with
            | .ok (e, s) => .ok (some (Statement.Expression e), s)
            | .error e => .error e
          else if ident = "quote" then
            let (_, s) := advance 2 s
            match quote fuel s with
            | .error e => .error e
            | .ok (quoted, s) =>
              let (_, s) := advance 1 s
              let (cur, s) := takeCurrent s
              match cur.map Token.data with
              | some .RightParen => .ok (some (Statement.Expression quoted), s)
              | some o => .error (syntaxError s.location ("expect ), got " ++ fmtTokenData o))
              | none => .error (syntaxError s.location "unclosed quotation!")
          else if ident = "define" then
            match definition fuel s with
            | .ok (d, s) => .ok (some (Statement.Definition d), s)
            | .error e => .error e
          else if ident = "set!" then
            match assginment fuel s with
            | .ok (e, s) => .ok (some (Statement.Expression e), s)
            | .error e => .error e
          else if ident = "import" then
            match importDeclaration fuel s with
            | .ok (st, s) => .ok (some st, s)
            | .error e => .error e
          else if ident = "if" then
            match condition fuel s with
            | .ok (e, s) => .ok (some (Statement.Expression e), s)
            | .error e => .error e
          else
            match procedureCall fuel s with
            | .ok (e, s) => .ok (some (Statement.Expression e), s)
            | .error e => .error e
        | some ⟨.RightParen, peekedLocation⟩ =>
          .error (syntaxError peekedLocation "empty procedure call")
        | _ =>
          match procedureCall fuel s with
          | .ok (e, s) => .ok (some (Statement.Expression e), s)
          | .error e => .error e
      | .RightParen => .error (syntaxError location "Unmatched Parentheses!")
      | .VecConsIntro =>
        match vector fuel s with
        | .ok (e, s) => .ok (some (Statement.Expression e), s)
        | .error e => .error e
      | .Character c => .ok (some (Statement.Expression ⟨.Character c, location⟩), s)
      | .String str => .ok (some (Statement.Expression ⟨.String str, location⟩), s)
      | .Quote =>
        let (_, s) := advance 1 s
        match quote fuel s with
        | .ok (e, s) => .ok (some (Statement.Expression e), s)
        | .error e => .error e
      | .Period => .ok (some (Statement.Expression ⟨.Period, location⟩), s)

/-- `parse_current_expression` (parser.rs lines 260-265). -/
def parseCurrentExpression : Nat → ParserS → Except SchemeError (Expression × ParserS)
  | 0, _ => .error outOfFuel
  | fuel + 1, s =>
    match parseCurrent fuel s with
    | .ok (some (Statement.Expression expr), s) => .ok (expr, s)
    | .ok (_, s) => .error (syntaxError s.location "expect a expression here")
    | .error e => .error e

/-- `datum` (parser.rs lines 381-400). -/
def datum : Nat → ParserS → Except SchemeError (Expression × ParserS)
  | 0, _ => .error outOfFuel
  | fuel + 1, s =>
    match s.current with
    | some ⟨.LeftParen, _⟩ =>
      match collectDatum fuel s with
      | .ok (seq, s) => .ok (⟨.List seq, s.location⟩, s)
      | .error e => .error e
    | some ⟨.VecConsIntro, _⟩ =>
      match collectDatum fuel s with
      | .ok (seq, s) => .ok (⟨.Vector seq, s.location⟩, s)
      | .error e => .error e
    | none => .error (syntaxError s.location "expect a literal")
    | some _ => parseCurrentExpression fuel s

/-- `quote` (parser.rs lines 373-379). -/
def quote : Nat → ParserS → Except SchemeError (Expression × ParserS)
  | 0, _ => .error outOfFuel
  | fuel + 1, s =>
    match datum fuel s with
    | .ok (inner, s) => .ok (⟨.Quote inner, s.location⟩, s)
    | .error e => .error e

/-- `vector` (parser.rs lines 340-343). -/
def vector : Nat → ParserS → Except SchemeError (Expression × ParserS)
  | 0, _ => .error outOfFuel
  | fuel + 1, s =>
    match collectDatum fuel s with
    | .ok (collection, s) => .ok (⟨.Vector collection, s.location⟩, s)
    | .error e => .error e

/-- The `collect(Self::datum)` instantiation of the generic `collect` loop
(parser.rs lines 314-338). -/
def collectDatum : Nat → ParserS → Except SchemeError (List Expression × ParserS)
  | 0, _ => .error outOfFuel
  | fuel + 1, s =>
    match peekNextToken s with
    | some ⟨.RightParen, _⟩ =>
      let (_, s) := advance 1 s
      .ok ([], s)
    | none => .error (syntaxError s.location "unexpect end of input")
    | some _ =>
      let (_, s) := advance 1 s
      match datum fuel s with
      | .error e => .error e
      | .ok (x, s) =>
        match collectDatum fuel s with
        | .ok (xs, s) => .ok (x :: xs, s)
        | .error e => .error e

/-- The `collect(Self::parse_current)` instantiation of the generic
`collect` loop (parser.rs lines 314-338); the element type is
`Option<Statement>`. -/
def collectStatements : Nat → ParserS →
    Except SchemeError (List (Option Statement) × ParserS)
  | 0, _ => .error outOfFuel
  | fuel + 1, s =>
    match peekNextToken s with
    | some ⟨.RightParen, _⟩ =>
      let (_, s) := advance 1 s
      .ok ([], s)
    | none => .error (syntaxError s.location "unexpect end of input")
    | some _ =>
      let (_, s) := advance 1 s
      match parseCurrent fuel s with
      | .error e => .error e
      | .ok (x, s) =>
        match collectStatements fuel s with
        | .ok (xs, s) => .ok (x :: xs, s)
        | .error e => .error e

/-- `lambda` (parser.rs lines 402-413). -/
def lambda : Nat → ParserS → Except SchemeError (Expression × ParserS)
  | 0, _ => .error outOfFuel
  | fuel + 1, s =>
    let location := s.location
    let (_, s) := advance 2 s
    let (cur, s) := takeCurrent s
    match cur.map Token.data with
    | some (.Identifier ident) => procedureBody fuel s ⟨[], some ident⟩
    | some .LeftParen =>
      match procedureFormals fuel s with
      | .ok (formals, s) => procedureBody fuel s formals
      | .error e => .error e
    | _ => .error (syntaxError location "expect formal identifiers")

/-- `procedure_body` (parser.rs lines 415-444). -/
def procedureBody : Nat → ParserS → ParameterFormals →
    Except SchemeError (Expression × ParserS)
  | 0, _, _ => .error outOfFuel
  | fuel + 1, s, formals =>
    match collectStatements fuel s with
    | .error e => .error e
    | .ok (statements, s) =>
      match partitionAndCheck s.location statements with
      | .error e => .error e
      | .ok (definitions, expressions) =>
        .ok (⟨.Procedure (SchemeProcedure.mk formals definitions expressions), s.location⟩, s)

/-- `condition` (parser.rs lines 453-495), the `if` special form.  Note the
alternative branch: the source runs `self.advance(1)?` after parsing the
alternative without inspecting the token it consumes. -/
def condition : Nat → ParserS → Except SchemeError (Expression × ParserS)
  | 0, _ => .error outOfFuel
  | fuel + 1, s =>
    let (_, s) := advance 1 s
    match parse fuel s with
    | .error e => .error e
    | .ok (first, s) =>
      match parse fuel s with
      | .error e => .error e
      | .ok (second, s) =>
        match first, second, peekNextToken s with
        | some (Statement.Expression test), some (Statement.Expression consequent),
            some ⟨.RightParen, _⟩ =>
          let (_, s) := advance 1 s
          .ok (⟨.Conditional test consequent none, s.location⟩, s)
        | some (Statement.Expression test), some (Statement.Expression consequent),
            some _ =>
          match parse fuel s with
          | .error e => .error e
          | .ok (some (Statement.Expression alternative), s) =>
            let (_, s) := advance 1 s
            .ok (⟨.Conditional test consequent (some alternative), s.location⟩, s)
          | .ok (other, s) =>
            .error (syntaxError s.location
              ("expect condition alternatives, got " ++ debugShortStatement other))
        | _, _, _ => .error (syntaxError s.location "conditional syntax error")

/-- `definition` (parser.rs lines 557-587), the `define` special form.  Both
result shapes are built with `Definition::from_data`, which attaches no
location. -/
def definition : Nat → ParserS → Except SchemeError (Definition × ParserS)
  | 0, _ => .error outOfFuel
  | fuel + 1, s =>
    let location := s.location
    let (_, s) := advance 2 s
    let (cur, s) := takeCurrent s
    match cur.map Token.data with
    | some (.Identifier identifier) =>
      match parse fuel s with
      | .error e => .error e
      | .ok (st, s) =>
        let (_, s) := advance 1 s
        let (cur2, s) := takeCurrent s
        match st, cur2.map Token.data with
        | some (Statement.Expression expr), some .RightParen =>
          .ok (Located.from_data (DefinitionBody.mk identifier expr), s)
        | _, _ => .error (syntaxError location "define: expect identifier and expression")
    | some .LeftParen =>
      let (_, s) := advance 1 s
      let (cur2, s) := takeCurrent s
      match cur2.map Token.data with
      | some (.Identifier identifier) =>
        match peekNextToken s with
        | some ⟨.Period, _⟩ =>
          let (_, s) := advance 2 s
          match getIdentifier s with
          | .error e => .error e
          | .ok variadic =>
            let (_, s) := advance 1 s
            match procedureBody fuel s ⟨[], some variadic⟩ with
            | .ok (body, s) => .ok (Located.from_data (DefinitionBody.mk identifier body), s)
            | .error e => .error e
        | _ =>
          match procedureFormals fuel s with
          | .error e => .error e
          | .ok (formals, s) =>
            match procedureBody fuel s formals with
            | .ok (body, s) => .ok (Located.from_data (DefinitionBody.mk identifier body), s)
            | .error e => .error e
      | _ => .error (syntaxError location "define: expect identifier and expression")
    | _ => .error (syntaxError location "define: expect identifier and expression")

/-- `assginment` (parser.rs lines 589-611), the `set!` special form; the
source's misspelled name is kept.  Unlike `definition`, the results are
located via `self.locate`. -/
def assginment : Nat → ParserS → Except SchemeError (Expression × ParserS)
  | 0, _ => .error outOfFuel
  | fuel + 1, s =>
    let location := s.location
    let (_, s) := advance 2 s
    let (cur, s) := takeCurrent s
    match cur.map Token.data with
    | some (.Identifier identifier) =>
      match parse fuel s with
      | .error e => .error e
      | .ok (st, s) =>
        let (_, s) := advance 1 s
        let (cur2, s) := takeCurrent s
        match st, cur2.map Token.data with
        | some (Statement.Expression expr), some .RightParen =>
          .ok (⟨.Assignment identifier expr, s.location⟩, s)
        | _, _ => .error (syntaxError location "define: expect identifier and expression")
    | some .LeftParen =>
      let (_, s) := advance 1 s
      let (cur2, s) := takeCurrent s
      match cur2.map Token.data with
      | some (.Identifier identifier) =>
        match procedureFormals fuel s with
        | .error e => .error e
        | .ok (formals, s) =>
          match procedureBody fuel s formals with
          | .ok (body, s) => .ok (⟨.Assignment identifier body, s.location⟩, s)
          | .error e => .error e
      | _ => .error (syntaxError location "set!: expect identifier and expression")
    | _ => .error (syntaxError location "set!: expect identifier and expression")

/-- `import_declaration` (parser.rs lines 446-451). -/
def importDeclaration : Nat → ParserS → Except SchemeError (Statement × ParserS)
  | 0, _ => .error outOfFuel
  | fuel + 1, s =>
    let (_, s) := advance 1 s
    match collectImportSets fuel s with
    | .ok (sets, s) => .ok (Statement.ImportDeclaration sets, s)
    | .error e => .error e

/-- `import_set` (parser.rs lines 497-555). -/
def importSet : Nat → ParserS → Except SchemeError (ImportSet × ParserS)
  | 0, _ => .error outOfFuel
  | fuel + 1, s =>
    let importDeclarationLocation := s.location
    let (cur, s) := takeCurrent s
    match cur with
    | some ⟨.Identifier libname, location⟩ => .ok (⟨.Direct libname, location⟩, s)
    | some ⟨.LeftParen, location⟩ =>
      let (_, s) := advance 1 s
      let (cur2, s) := takeCurrent s
      match cur2.map Token.data with
      | some (.Identifier ident) =>
        if ident = "only" then
          let (_, s) := advance 1 s
          match importSet fuel s with
          | .error e => .error e
          | .ok (inner, s) =>
            match collectIdentifiers fuel s with
            | .ok (names, s) => .ok (⟨.Only inner names, location⟩, s)
            | .error e => .error e
        else if ident = "except" then
          let (_, s) := advance 1 s
          match importSet fuel s with
          | .error e => .error e
          | .ok (inner, s) =>
            match collectIdentifiers fuel s with
            | .ok (names, s) => .ok (⟨.Except inner names, location⟩, s)
            | .error e => .error e
        else if ident = "prefix" then
          let (_, s) := advance 2 s
          let (cur3, s) := takeCurrent s
          match cur3.map Token.data with
          | some (.Identifier identifier) =>
            match importSet fuel s with
            | .ok (inner, s) => .ok (⟨ ImportSetBody.Prefix inner identifier, location⟩, s)
            | .error e => .error e
          | _ => .error (syntaxError location "expect a prefix name after import")
        else if ident = "rename" then
          let (_, s) := advance 1 s
          match importSet fuel s with
          | .error e => .error e
          | .ok (inner, s) =>
            match collectIdentifierPairs fuel s with
            | .ok (pairs, s) => .ok (⟨.Rename inner pairs, location⟩, s)
            | .error e => .error e
        else .error (syntaxError location "import: expect sub import set")
      | _ => .error (syntaxError location "import: expect library name or sub import sets")
    | other =>
      .error (syntaxError importDeclarationLocation
        ("expect an import set, got " ++ debugOptionTokenData (other.map Token.data)))

/-- The `collect(Self::import_set)` instantiation of the generic `collect`
loop (parser.rs lines 314-338). -/
def collectImportSets : Nat → ParserS → Except SchemeError (List ImportSet × ParserS)
  | 0, _ => .error outOfFuel
  | fuel + 1, s =>
    match peekNextToken s with
    | some ⟨.RightParen, _⟩ =>
      let (_, s) := advance 1 s
      .ok ([], s)
    | none => .error (syntaxError s.location "unexpect end of input")
    | some _ =>
      let (_, s) := advance 1 s
      match importSet fuel s with
      | .error e => .error e
      | .ok (x, s) =>
        match collectImportSets fuel s with
        | .ok (xs, s) => .ok (x :: xs, s)
        | .error e => .error e

/-- `procedure_call` (parser.rs lines 613-636): parse the operator, then
loop over argument expressions. -/
def procedureCall : Nat → ParserS → Except SchemeError (Expression × ParserS)
  | 0, _ => .error outOfFuel
  | fuel + 1, s =>
    match parse fuel s with
    | .error e => .error e
    | .ok (some (Statement.Expression operator), s) => procedureCallArgs fuel s operator []
    | .ok (_, s) => .error (syntaxError s.location "operator should be an expression")

/-- The argument loop of `procedure_call` (parser.rs lines 616-632). -/
def procedureCallArgs : Nat → ParserS → Expression → List Expression →
    Except SchemeError (Expression × ParserS)
  | 0, _, _, _ => .error outOfFuel
  | fuel + 1, s, operator, arguments =>
    match peekNextToken s with
    | some ⟨.RightParen, _⟩ =>
      let (_, s) := advance 1 s
      .ok (⟨.ProcedureCall operator arguments, s.location⟩, s)
    | none => .error (syntaxError s.location "Unmatched Parentheses!")
    | some _ =>
      match parse fuel s with
      | .error e => .error e
      | .ok (some (Statement.Expression subexpr), s) =>
        procedureCallArgs fuel s operator (arguments ++ [subexpr])
      | .ok (_, s) => .error (syntaxError s.location "Unmatched Parentheses!")

end

/-- Run the parser for one top-level statement on a fresh token stream,
keeping only the statement (the Rust test pattern
`token_stream_to_parser(tokens).parse()`). -/
def parse1 (fuel : Nat) (tokens : List Token) : Except SchemeError (Option Statement) :=
  match parse fuel (fromLexer tokens) with
  | .ok (st, _) => .ok st
  | .error e => .error e

/-- Modelled from the spec (§3): `Number<R>` lives outside src/.  The
build-time IEEE float parameter `R` (f32 in the repository's tests) is
modelled by `Rat`; every value any claim evaluates (such as `1.0`) is exactly
representable in f32, so ordering and equality at those values agree with
the float semantics. -/
inductive Number where
  | Integer (n : Int)
  | Rational (n : Int) (d : Nat)
  | Real (r : Rat)
deriving DecidableEq

/-- Numeric value of a `Number`, the basis of the spec-modelled comparison
and promotion operations (spec §4.1: promote on `Integer ⊂ Rational ⊂ Real`
and compare on the common representation). -/
def Number.toRat : Number → Rat
  | .Integer n => mkRat n 1
  | .Rational n d => mkRat n d
  | .Real r => r

/-- Modelled from the spec (§3, §4.1): `PartialEq` for `Number` lives outside
src/; numbers compare by numeric value across exact/inexact. -/
def numEq (a b : Number) : Bool :=
  a.toRat = b.toRat

/-- Modelled from the spec (§4.1): ordering `<` on the upcast pair. -/
def numLt (a b : Number) : Bool :=
  a.toRat < b.toRat

/-- Modelled from the spec (§4.1): ordering `<=` on the upcast pair. -/
def numLe (a b : Number) : Bool :=
  a.toRat ≤ b.toRat

/-- Modelled from the spec (§4.1): ordering `>` on the upcast pair. -/
def numGt (a b : Number) : Bool :=
  b.toRat < a.toRat

/-- Modelled from the spec (§4.1): ordering `>=` on the upcast pair. -/
def numGe (a b : Number) : Bool :=
  b.toRat ≤ a.toRat

/-- Modelled from the spec (§4.1, §9): the promotion primitive
`upcast_oprands` lives outside src/.  Spec §4.1: "The promotion function
returns a pair `(lhs', rhs')` preserving left/right identity so `min`/`max`
can report the original-side winner"; §9 describes it as "a small record
`{lhs, rhs}` with per-side originals".  It is therefore modelled as the
record of the two original operands. -/
structure NumberBinaryOperand where
  lhs : Number
  rhs : Number

/-- Modelled from the spec (§4.1, §9); see `NumberBinaryOperand`. -/
def upcast_oprands (operand : Number × Number) : NumberBinaryOperand :=
  ⟨operand.1, operand.2⟩

/-- Build an exact number from a rational, collapsing to `Integer` when the
denominator is 1 (spec §3: canonical `Rational` collapses to `Integer`). -/
def exactOfRat (q : Rat) : Number :=
  if q.den = 1 then .Integer q.num else .Rational q.num q.den

/-- Exactness of a number (spec §3: `Integer` and `Rational` are exact,
`Real` is inexact). -/
def Number.isExact : Number → Bool
  | .Real _ => false
  | _ => true

/-- Modelled from the spec (§4.1): `Number::floor` lives outside src/.  On
`Integer` identity; on `Rational(n, d)` the floor integer; on `Real` the
standard floor, staying inexact. -/
def Number.floor : Number → Number
  | .Integer n => .Integer n
  | .Rational n d => .Integer (Int.fdiv n d)
  | .Real r => .Real (mkRat (Int.fdiv r.num r.den) 1)

/-- Modelled from the spec (§4.1): `Number::ceiling` lives outside src/. -/
def Number.ceiling : Number → Number
  | .Integer n => .Integer n
  | .Rational n d => .Integer (-(Int.fdiv (-n) d))
  | .Real r => .Real (mkRat (-(Int.fdiv (-r.num) r.den)) 1)

/-- Rational approximation standing in for the float square root on the
inexact path; no claim evaluates this branch. -/
def ratSqrtApprox (q : Rat) : Rat :=
  mkRat (Nat.sqrt (Int.toNat q.num * q.den * 1000000000000)) (q.den * 1000000)

/-- Exact square root of a rational when it is a perfect square. -/
def ratSqrtExact (q : Rat) : Option Rat :=
  if q.num < 0 then none
  else
    let sn := Nat.sqrt (Int.toNat q.num)
    let sd := Nat.sqrt q.den
    if sn * sn = Int.toNat q.num && sd * sd = q.den then some (mkRat sn sd) else none

/-- Modelled from the spec (§4.1): `Number::sqrt` lives outside src/.  On
exact values yielding a perfect-square exact result it returns exact;
otherwise it returns `Real` (the inexact approximation; no claim depends on
the approximated digits). -/
def Number.sqrt (x : Number) : Number :=
  let q := x.toRat
  match (if x.isExact then ratSqrtExact q else none) with
  | some r => exactOfRat r
  | none => .Real (ratSqrtApprox q)

/-- Modelled from the spec (§4.1): `Number::exact` lives outside src/.
Identity on exact numbers; on `Real` the conversion to an exact rational
(error-free on the finite values modelled here, which is why the `?` in the
`exact` macro instantiation never fires in any claim). -/
def Number.exact : Number → Except SchemeError Number
  | .Integer n => .ok (.Integer n)
  | .Rational n d => .ok (.Rational n d)
  | .Real r => .ok (exactOfRat r)

/-- Modelled from the spec (§4.1): `Number::floor_quotient` lives outside
src/.  Euclidean-floor quotient on the integer domain; zero divisor fails
with `Logic` (the message is not pinned by the spec); non-integer operands
widen to the `Real` equivalent. -/
def Number.floor_quotient (a b : Number) : Except SchemeError Number :=
  if b.toRat = 0 then .error (logicError "division by exact zero")
  else
    match a, b with
    | .Integer x, .Integer y => .ok (.Integer (Int.fdiv x y))
    | _, _ =>
      let q := a.toRat / b.toRat
      .ok (.Real (mkRat (Int.fdiv q.num q.den) 1))

/-- Modelled from the spec (§4.1): `Number::floor_remainder` lives outside
src/; the Euclidean-floor modulus matching `floor_quotient`. -/
def Number.floor_remainder (a b : Number) : Except SchemeError Number :=
  if b.toRat = 0 then .error (logicError "division by exact zero")
  else
    match a, b with
    | .Integer x, .Integer y => .ok (.Integer (Int.fmod x y))
    | _, _ =>
      let q := a.toRat / b.toRat
      .ok (.Real (a.toRat - b.toRat * mkRat (Int.fdiv q.num q.den) 1))

/-- Modelled from the spec (§3): `Value<R, E>` lives outside src/.  The
`Procedure`, `EmptyList` and `Pair` variants are omitted: no claim about the
base library constructs or inspects them, and every built-in treats them
through the same non-number / non-vector fallthrough arms as the variants
kept here. -/
inductive Value where
  | Number (n : Number)
  | Boolean (b : Bool)
  | Character (c : Char)
  | String (s : String)
  | Symbol (s : String)
  | Vector (v : List Value)
  | Void

/-- Whether a runtime value is a number (the `Value::Number` pattern). -/
def isNumberValue : Value → Bool
  | .Number _ => true
  | _ => false

/-- Modelled from the spec (§4.2): `Display` for `Number`; the `Real`
shortest-round-trip decimal is abstracted by the `Rat` rendering (used only
inside error-message payloads no claim depends on). -/
def fmtNumber : Number → String
  | .Integer n => toString n
  | .Rational n d => toString n ++ "/" ++ toString d
  | .Real r => toString r

mutual

/-- Modelled from the spec (§4.2): `Display` for `Value` lives outside src/;
used only inside error-message payloads that no claim depends on. -/
def fmtValue : Value → String
  | .Number n => fmtNumber n
  | .Boolean true => "#t"
  | .Boolean false => "#f"
  | .Character c => "#\\" ++ String.singleton c
  | .String s => "\"" ++ s ++ "\""
  | .Symbol s => s
  | .Vector v => "#(" ++ String.intercalate " " (fmtValueList v) ++ ")"
  | .Void => "Void"

/-- Element-wise rendering for `fmtValue` on vectors. -/
def fmtValueList : List Value → List String
  | [] => []
  | v :: rest => fmtValue v :: fmtValueList rest

end

/-- Modelled derive-`Debug` rendering of a `Number` (the `{:?}` format). -/
def debugNumber : Number → String
  | .Integer n => "Integer(" ++ toString n ++ ")"
  | .Rational n d => "Rational(" ++ toString n ++ ", " ++ toString d ++ ")"
  | .Real r => "Real(" ++ toString r ++ ")"

mutual

/-- Modelled derive-`Debug` rendering of a `Value` (the `{:?}` format used by
the `numeric_one_argument` macro's type-error message). -/
def debugValue : Value → String
  | .Number n => "Number(" ++ debugNumber n ++ ")"
  | .Boolean b => "Boolean(" ++ toString b ++ ")"
  | .Character c => "Character(" ++ String.singleton c ++ ")"
  | .String s => "String(\"" ++ s ++ "\")"
  | .Symbol s => "Symbol(\"" ++ s ++ "\")"
  | .Vector v => "Vector([" ++ String.intercalate ", " (debugValueList v) ++ "])"
  | .Void => "Void"

/-- Element-wise rendering for `debugValue` on vectors. -/
def debugValueList : List Value → List String
  | [] => []
  | v :: rest => debugValue v :: debugValueList rest

end

namespace Base

/-- The body of the `numeric_one_argument!` macro (base.rs lines 72-84),
parameterized exactly by the macro's `$name` and `$func` arguments.  The
infallible number methods (`sqrt`, `floor`, `ceiling`) are lifted into the
fallible shape so the one body covers the optional `?` of the macro. -/
def numeric_one_argument (name : String) (func : Number → Except SchemeError Number)
    (arguments : List Value) : Except SchemeError Value :=
  match arguments.head? with
  | some (Value.Number number) =>
    match func number with
    | .ok n => .ok (Value.Number n)
    | .error e => .error e
  | some other => .error (logicError (name ++ " requires a number, got " ++ debugValue other))
  | none => .error (logicError (name ++ " takes exactly one argument"))

/-- `numeric_one_argument!("sqrt", sqrt)` (base.rs line 85). -/
def sqrt : List Value → Except SchemeError Value :=
  numeric_one_argument "sqrt" (fun n => .ok (Number.sqrt n))

/-- `numeric_one_argument!("floor", floor)` (base.rs line 87). -/
def floor : List Value → Except SchemeError Value :=
  numeric_one_argument "floor" (fun n => .ok (Number.floor n))

/-- `numeric_one_argument!("ceiling", ceiling)` (base.rs line 89). -/
def ceiling : List Value → Except SchemeError Value :=
  numeric_one_argument "ceiling" (fun n => .ok (Number.ceiling n))

/-- `numeric_one_argument!("exact", exact, ?)` (base.rs line 91). -/
def exact : List Value → Except SchemeError Value :=
  numeric_one_argument "exact" Number.exact

/-- The body of the `numeric_two_arguments!` macro (base.rs lines 123-142),
parameterized by the macro's `$name` and `$func` arguments. -/
def numeric_two_arguments (name : String) (func : Number → Number → Except SchemeError Number)
    (arguments : List Value) : Except SchemeError Value :=
  match arguments with
  | [] => .error (logicError (name ++ " takes exactly two arguments"))
  | first :: rest =>
    match first with
    | Value.Number lhs =>
      match rest.head? with
      | some (Value.Number rhs) =>
        match func lhs rhs with
        | .ok n => .ok (Value.Number n)
        | .error e => .error e
      | some _ => .error (logicError "expect a number!")
      | none => .error (logicError (name ++ " takes exactly two arguments"))
    | _ => .error (logicError "expect a number!")

/-- `numeric_two_arguments!("floor-quotient", floor_quotient, ?)`
(base.rs line 144). -/
def floor_quotient : List Value → Except SchemeError Value :=
  numeric_two_arguments "floor-quotient" Number.floor_quotient

/-- `numeric_two_arguments!("floor-remainder", floor_remainder, ?)`
(base.rs line 146). -/
def floor_remainder : List Value → Except SchemeError Value :=
  numeric_two_arguments "floor-remainder" Number.floor_remainder

/-- `vector` (base.rs lines 196-201). -/
def vector (arguments : List Value) : Except SchemeError Value :=
  .ok (Value.Vector arguments)

/-- `vector_ref` (base.rs lines 203-219).  The Rust `i as usize` conversion
wraps a negative i32 index to a value at least `2^32 - 2^31`, which is out of
bounds for any vector the model can hold, so a negative index is modelled
directly as an out-of-bounds lookup. -/
def vector_ref (arguments : List Value) : Except SchemeError Value :=
  match arguments with
  | [] => .error (logicError "vector_ref requires exactly two argument")
  | Value.Vector vec :: rest =>
    match rest.head? with
    | none => .error (logicError "vector_ref requires exactly two argument")
    | some (Value.Number (Number.Integer i)) =>
      match (if 0 ≤ i then vec.get? i.toNat else none) with
      | some value => .ok value
      | none => .error (logicError "vector index out of bound")
    | some _ => .error (logicError "expect a integer!")
  | _ :: _ => .error (logicError "expect a vector!")

/-- `display` (base.rs lines 303-313).  The `print!` side effect is outside
the value model; only the returned value and the errors are kept. -/
def display (arguments : List Value) : Except SchemeError Value :=
  match arguments.head? with
  | some _ => .ok Value.Void
  | none => .error (logicError "display takes exactly one argument")

/-- `newline` (base.rs lines 315-325); note the source reuses the `display`
error message. -/
def newline (arguments : List Value) : Except SchemeError Value :=
  match arguments.head? with
  | none => .ok Value.Void
  | some _ => .error (logicError "display takes exactly one argument")

/-- The chain loop inside the `comparision!` macro (base.rs lines 335-349):
`last` is the running left operand. -/
def comparisionGo (opName : String) (op : Number → Number → Bool) :
    Value → List Value → Except SchemeError Value
  | _, [] => .ok (Value.Boolean true)
  | last, current :: rest =>
    match last, current with
    | Value.Number a, Value.Number b =>
      if !(op a b) then .ok (Value.Boolean false)
      else comparisionGo opName op (Value.Number b) rest
    | _, _ => .error (logicError (opName ++ " comparision can only between numbers!"))

/-- The body of the `comparision!` macro (base.rs lines 327-354),
parameterized by `stringify!($operator)` and the operator itself. -/
def comparision (opName : String) (op : Number → Number → Bool)
    (arguments : List Value) : Except SchemeError Value :=
  match arguments with
  | [] => .ok (Value.Boolean true)
  | first :: rest => comparisionGo opName op first rest

/-- `comparision!(equals, ==)` (base.rs line 356). -/
def equals : List Value → Except SchemeError Value :=
  comparision "==" numEq

/-- `comparision!(greater, >)` (base.rs line 357). -/
def greater : List Value → Except SchemeError Value :=
  comparision ">" numGt

/-- `comparision!(greater_equal, >=)` (base.rs line 358). -/
def greater_equal : List Value → Except SchemeError Value :=
  comparision ">=" numGe

/-- `comparision!(less, <)` (base.rs line 359). -/
def less : List Value → Except SchemeError Value :=
  comparision "<" numLt

/-- `comparision!(less_equal, <=)` (base.rs line 360). -/
def less_equal : List Value → Except SchemeError Value :=
  comparision "<=" numLe

/-- The `try_fold` closure inside the `first_of_order!` macro (base.rs lines
371-379): keep the original-side winner of the upcast pair. -/
def first_of_order_fold (cmp : Number → Number → Bool) :
    Value → List Value → Except SchemeError Value
  | a, [] => .ok a
  | a, b :: rest =>
    match a, b with
    | Value.Number num1, Value.Number num2 =>
      first_of_order_fold cmp
        (Value.Number
          (match cmp num1 num2 with
          | true => (upcast_oprands (num1, num2)).lhs
          | false => (upcast_oprands (num1, num2)).rhs)) rest
    | _, o => .error (logicError ("expect a number, got " ++ fmtValue o))

/-- The body of the `first_of_order!` macro (base.rs lines 362-385); note
the zero-argument message is the literal string naming `min` for both
instantiations. -/
def first_of_order (cmp : Number → Number → Bool) (arguments : List Value) :
    Except SchemeError Value :=
  match arguments with
  | [] => .error (logicError "min requires at least one argument!")
  | Value.Number num :: rest => first_of_order_fold cmp (Value.Number num) rest
  | o :: _ => .error (logicError ("expect a number, got " ++ fmtValue o))

/-- `first_of_order!(max, >)` (base.rs line 387). -/
def max : List Value → Except SchemeError Value :=
  first_of_order numGt

/-- `first_of_order!(min, <)` (base.rs line 388). -/
def min : List Value → Except SchemeError Value :=
  first_of_order numLt

/-- The name-to-`ParameterFormals` registration table of `base_library`
(base.rs lines 390-445).  The `Value::Procedure` payload holding the Rust
function pointer is not modelled; each built-in is embedded above as a plain
function, and this table keeps the declared formals of each name. -/
def base_library : List (String × ParameterFormals) :=
  [("+", ⟨[], some "x"⟩),
   ("-", ⟨[], some "x"⟩),
   ("*", ⟨[], some "x"⟩),
   ("/", ⟨[], some "x"⟩),
   ("=", ⟨[], some "x"⟩),
   ("<", ⟨[], some "x"⟩),
   ("<=", ⟨[], some "x"⟩),
   (">", ⟨[], some "x"⟩),
   (">=", ⟨[], some "x"⟩),
   ("min", ⟨[], some "x"⟩),
   ("max", ⟨[], some "x"⟩),
   ("sqrt", ⟨["x"], none⟩),
   ("floor", ⟨["x"], none⟩),
   ("ceiling", ⟨["x"], none⟩),
   ("exact", ⟨["x"], none⟩),
   ("floor-quotient", ⟨["n1", "n2"], none⟩),
   ("floor-remainder", ⟨["n1", "n2"], none⟩),
   ("display", ⟨["value"], none⟩),
   ("newline", ⟨[], none⟩),
   ("vector", ⟨[], none⟩),
   ("vector-ref", ⟨["vector", "k"], none⟩)]

end Base

/-- Token with no source location, matching the repository's test fixture
`convert_located` (tokens carrying `location: None`). -/
def tk (d : TokenData) : Token :=
  ⟨d, none⟩

/-- Soundness of the `procedure_body` partition loop with respect to its
accumulators: a successful run appends a leading block of definitions and a
trailing block of expressions, and once the expression accumulator is
non-empty no further definition can be accepted. -/
theorem partitionStatements_ok_shape (loc : Option (Nat × Nat))
    (st : List (Option Statement)) :
    ∀ (ds0 ds : List Definition) (es0 es : List Expression),
      partitionStatements loc st ds0 es0 = Except.ok (ds, es) →
      ∃ dt et, ds = ds0 ++ dt ∧ es = es0 ++ et ∧
        st = dt.map (fun d => some (Statement.Definition d)) ++
          et.map (fun e => some (Statement.Expression e)) ∧
        (es0 ≠ [] → dt = []) := by
  induction st with
  | nil =>
    intro ds0 ds es0 es h
    simp only [partitionStatements, Except.ok.injEq, Prod.mk.injEq] at h
    obtain ⟨h1, h2⟩ := h
    exact ⟨[], [], by simp [h1], by simp [h2], by simp, fun _ => rfl⟩
  | cons head tail ih =>
    intro ds0 ds es0 es h
    cases head with
    | none => simp [partitionStatements] at h
    | some stmt =>
      cases stmt with
      | ImportDeclaration sets => simp [partitionStatements] at h
      | Definition d =>
        cases es0 with
        | nil =>
          rw [show partitionStatements loc (some (Statement.Definition d) :: tail) ds0 []
              = partitionStatements loc tail (ds0 ++ [d]) [] from rfl] at h
          obtain ⟨dt', et', hds, hes, hst, _⟩ := ih (ds0 ++ [d]) ds [] es h
          refine ⟨d :: dt', et', by simp [hds], by simpa using hes, by simp [hst],
            fun hne => absurd rfl hne⟩
        | cons e0 es0' => simp [partitionStatements] at h
      | Expression ex =>
        rw [show partitionStatements loc (some (Statement.Expression ex) :: tail) ds0 es0
            = partitionStatements loc tail ds0 (es0 ++ [ex]) from rfl] at h
        obtain ⟨dt', et', hds, hes, hst, hdt⟩ := ih ds0 ds (es0 ++ [ex]) es h
        have hdt0 : dt' = [] := hdt (by simp)
        subst hdt0
        refine ⟨[], ex :: et', by simpa using hds, by simp [hes], ?_, fun _ => rfl⟩
        simp only [List.map_nil, List.nil_append, List.map_cons] at hst ⊢
        simp [hst]

/-- Every error produced by the `procedure_body` partition loop is a
`Syntax` error. -/
theorem partitionStatements_error_syntax (loc : Option (Nat × Nat))
    (st : List (Option Statement)) :
    ∀ (ds0 : List Definition) (es0 : List Expression) (e : SchemeError),
      partitionStatements loc st ds0 es0 = Except.error e →
      e.category = ErrorType.Syntax := by
  induction st with
  | nil => intro ds0 es0 e h; simp [partitionStatements] at h
  | cons head tail ih =>
    intro ds0 es0 e h
    cases head with
    | none =>
      simp only [partitionStatements, Except.error.injEq] at h
      subst h; rfl
    | some stmt =>
      cases stmt with
      | ImportDeclaration sets =>
        simp only [partitionStatements, Except.error.injEq] at h
        subst h; rfl
      | Definition d =>
        cases es0 with
        | nil =>
          rw [show partitionStatements loc (some (Statement.Definition d) :: tail) ds0 []
              = partitionStatements loc tail (ds0 ++ [d]) [] from rfl] at h
          exact ih (ds0 ++ [d]) [] e h
        | cons e0 es0' =>
          simp only [partitionStatements, List.isEmpty_cons, if_false, Bool.false_eq_true,
            Except.error.injEq] at h
          subst h; rfl
      | Expression ex =>
        rw [show partitionStatements loc (some (Statement.Expression ex) :: tail) ds0 es0
            = partitionStatements loc tail ds0 (es0 ++ [ex]) from rfl] at h
        exact ih ds0 (es0 ++ [ex]) e h

/-- C6: parsing a procedure body collects statements up to the matching right
paren, partitions a leading contiguous run of definitions from the following
expressions, and fails with a Syntax error if any definition appears after
any expression, if there is no expression, or if the body is empty (the
success shape below is exactly "leading definitions, then a non-empty run of
expressions"; by contraposition every other statement list fails, and every
failure carries the `Syntax` kind); in particular the tokens of
`(lambda (x) (define y 1))` fail with
`Syntax("no expression in procedure body")`. -/
theorem C6_theorem :
    (∀ (loc : Option (Nat × Nat)) (st : List (Option Statement))
        (ds : List Definition) (es : List Expression),
      partitionAndCheck loc st = Except.ok (ds, es) →
      st = ds.map (fun d => some (Statement.Definition d)) ++
          es.map (fun e => some (Statement.Expression e)) ∧ es ≠ []) ∧
    (∀ (loc : Option (Nat × Nat)) (st : List (Option Statement)) (e : SchemeError),
      partitionAndCheck loc st = Except.error e → e.category = ErrorType.Syntax) ∧
    parse1 32 [tk .LeftParen, tk (.Identifier "lambda"), tk .LeftParen,
        tk (.Identifier "x"), tk .RightParen, tk .LeftParen, tk (.Identifier "define"),
        tk (.Identifier "y"), tk (.Integer 1), tk .RightParen, tk .RightParen]
      = Except.error (syntaxError none "no expression in procedure body") := by
  refine ⟨?_, ?_, rfl⟩
  · intro loc st ds es h
    unfold partitionAndCheck at h
    split at h
    next => simp at h
    next ds' es' hps =>
      split at h
      next => simp at h
      next hemp =>
        obtain ⟨h1, h2⟩ := Prod.mk.inj (Except.ok.inj h)
        have hne : es' ≠ [] := by simpa using hemp
        obtain ⟨dt, et, hds, hes, hst, _⟩ :=
          partitionStatements_ok_shape loc st [] ds' [] es' hps
        simp only [List.nil_append] at hds hes
        constructor
        · rw [← h1, ← h2, hds, hes]
          exact hst
        · rw [← h2]
          exact hne
  · intro loc st err h
    unfold partitionAndCheck at h
    split at h
    next e' hps =>
      obtain rfl : e' = err := Except.error.inj h
      exact partitionStatements_error_syntax loc st [] [] e' hps
    next ds' es' hps =>
      split at h
      next =>
        obtain rfl : syntaxError loc "no expression in procedure body" = err :=
          Except.error.inj h
        rfl
      next => simp at h

/-- Witness for C6: applying its success-shape direction at the concrete
one-expression body. -/
theorem C6_witness :
    [some (Statement.Expression (Located.from_data (ExpressionBody.Integer 1)))]
      = ([] : List Definition).map (fun d => some (Statement.Definition d)) ++
        [Located.from_data (ExpressionBody.Integer 1)].map
          (fun e => some (Statement.Expression e)) ∧
      [Located.from_data (ExpressionBody.Integer 1)] ≠ ([] : List Expression) :=
  C6_theorem.1 none
    [some (Statement.Expression (Located.from_data (ExpressionBody.Integer 1)))]
    [] [Located.from_data (ExpressionBody.Integer 1)] rfl

/-- C1 counterexample: the claim says every call with an argument count
different from the declared fixed arity fails with a Logic error, but
`vector-ref` (declared arity 2) applied to three arguments succeeds — the
extra argument is silently ignored. -/
theorem C1_counterexample :
    Base.vector_ref [Value.Vector [Value.Number (Number.Integer 5)],
        Value.Number (Number.Integer 0), Value.Number (Number.Integer 99)]
      = Except.ok (Value.Number (Number.Integer 5)) := rfl

/-- C1 amended: for the built-ins registered by `base_library` with declared
fixed arity n (sqrt, floor, ceiling, exact, display with n = 1;
floor-quotient, floor-remainder, vector-ref with n = 2; newline with n = 0),
calling with fewer than n arguments fails with a Logic error, and for
newline any non-zero argument count fails with a Logic error; arguments
beyond the first n are silently ignored (display succeeds on any non-empty
argument list, and the `numeric_one_argument` functions evaluate only the
first argument), and the registry declares exactly the arities above. -/
theorem C1_amended :
    Base.sqrt [] = Except.error (logicError "sqrt takes exactly one argument") ∧
    Base.floor [] = Except.error (logicError "floor takes exactly one argument") ∧
    Base.ceiling [] = Except.error (logicError "ceiling takes exactly one argument") ∧
    Base.exact [] = Except.error (logicError "exact takes exactly one argument") ∧
    Base.display [] = Except.error (logicError "display takes exactly one argument") ∧
    Base.floor_quotient []
      = Except.error (logicError "floor-quotient takes exactly two arguments") ∧
    Base.floor_remainder []
      = Except.error (logicError "floor-remainder takes exactly two arguments") ∧
    Base.vector_ref []
      = Except.error (logicError "vector_ref requires exactly two argument") ∧
    (∀ v : Value, ∃ msg, Base.floor_quotient [v] = Except.error (logicError msg)) ∧
    (∀ v : Value, ∃ msg, Base.floor_remainder [v] = Except.error (logicError msg)) ∧
    (∀ v : Value, ∃ msg, Base.vector_ref [v] = Except.error (logicError msg)) ∧
    (∀ (v : Value) (vs : List Value),
      Base.newline (v :: vs) = Except.error (logicError "display takes exactly one argument")) ∧
    (∀ (v : Value) (vs : List Value), Base.display (v :: vs) = Except.ok Value.Void) ∧
    (∀ (name : String) (func : Number → Except SchemeError Number) (n : Number)
        (extra : List Value),
      Base.numeric_one_argument name func (Value.Number n :: extra)
        = (func n).map Value.Number) ∧
    List.lookup "sqrt" Base.base_library = some ⟨["x"], none⟩ ∧
    List.lookup "floor" Base.base_library = some ⟨["x"], none⟩ ∧
    List.lookup "ceiling" Base.base_library = some ⟨["x"], none⟩ ∧
    List.lookup "exact" Base.base_library = some ⟨["x"], none⟩ ∧
    List.lookup "display" Base.base_library = some ⟨["value"], none⟩ ∧
    List.lookup "floor-quotient" Base.base_library = some ⟨["n1", "n2"], none⟩ ∧
    List.lookup "floor-remainder" Base.base_library = some ⟨["n1", "n2"], none⟩ ∧
    List.lookup "vector-ref" Base.base_library = some ⟨["vector", "k"], none⟩ ∧
    List.lookup "newline" Base.base_library = some ⟨[], none⟩ := by
  refine ⟨rfl, rfl, rfl, rfl, rfl, rfl, rfl, rfl, ?_, ?_, ?_, ?_, ?_, ?_,
    rfl, rfl, rfl, rfl, rfl, rfl, rfl, rfl, rfl⟩
  · intro v; cases v <;> exact ⟨_, rfl⟩
  · intro v; cases v <;> exact ⟨_, rfl⟩
  · intro v; cases v <;> exact ⟨_, rfl⟩
  · intro v vs; rfl
  · intro v vs; rfl
  · intro name func n extra
    show (match func n with
      | .ok m => Except.ok (Value.Number m)
      | .error e => Except.error e) = (func n).map Value.Number
    cases func n <;> rfl

/-- C2 counterexample: the claim says `min` applied to the exact `Integer 1`
and the inexact `Real 1.0` returns the exact `Integer 1`; the code compares
`1 < 1.0`, which is false, so the right-hand operand wins and the inexact
`1.0` is returned. -/
theorem C2_counterexample :
    Base.min [Value.Number (Number.Integer 1), Value.Number (Number.Real (mkRat 1 1))]
      = Except.ok (Value.Number (Number.Real (mkRat 1 1))) ∧
    Base.min [Value.Number (Number.Integer 1), Value.Number (Number.Real (mkRat 1 1))]
      ≠ Except.ok (Value.Number (Number.Integer 1)) := by
  refine ⟨rfl, fun h => ?_⟩
  have h1 : Value.Number (Number.Real (mkRat 1 1)) = Value.Number (Number.Integer 1) :=
    Except.ok.inj h
  have h2 : Number.Real (mkRat 1 1) = Number.Integer 1 := Value.Number.inj h1
  exact absurd h2 (by decide)

/-- C2 amended: for `min` and `max` on numeric arguments the fold compares
each pair with `<` (min) or `>` (max) and the step result is the original
operand (not the upcast form) of the side selected by the comparison — the
left operand when the comparison holds, the right operand otherwise; since
`1 < 1.0` is false, `min` applied to exact `Integer 1` and inexact `Real 1.0`
returns the inexact `Real 1.0` (ties go to the right-hand operand). -/
theorem C2_amended :
    (∀ num1 num2 : Number, Base.min [Value.Number num1, Value.Number num2]
        = Except.ok (Value.Number (if numLt num1 num2 then num1 else num2))) ∧
    (∀ num1 num2 : Number, Base.max [Value.Number num1, Value.Number num2]
        = Except.ok (Value.Number (if numGt num1 num2 then num1 else num2))) ∧
    Base.min [Value.Number (Number.Integer 1), Value.Number (Number.Real (mkRat 1 1))]
      = Except.ok (Value.Number (Number.Real (mkRat 1 1))) := by
  refine ⟨?_, ?_, rfl⟩
  · intro num1 num2
    cases h : numLt num1 num2 <;>
      simp [Base.min, Base.first_of_order, Base.first_of_order_fold, upcast_oprands, h]
  · intro num1 num2
    cases h : numGt num1 num2 <;>
      simp [Base.max, Base.first_of_order, Base.first_of_order_fold, upcast_oprands, h]

/-- C3: the claim says that after parsing the alternative of an `(if ...)`
form the parser requires a `RightParen` and raises a Syntax error on any
other token; the code instead runs `self.advance(1)?` without inspecting the
consumed token, so the token stream of `(if #t 1 2 oops` — where an
identifier, not a right paren, follows the alternative — parses successfully
into a `Conditional`. -/
theorem C3_code_behavior :
    parse1 32 [tk .LeftParen, tk (.Identifier "if"), tk (.Boolean true),
        tk (.Integer 1), tk (.Integer 2), tk (.Identifier "oops")]
      = Except.ok (some (Statement.Expression
          ⟨.Conditional ⟨.Boolean true, none⟩ ⟨.Integer 1, none⟩
            (some ⟨.Integer 2, none⟩), none⟩)) := rfl

/-- C4 counterexample: the claim says a Definition parsed from
`(define name expr)` carries the location of its introducing token; parsing
located tokens of `(define a 1)` (opening paren at line 1 column 1) yields a
Definition built by `Definition::from_data`, whose location is `none`, not
`some (1, 1)`. -/
theorem C4_counterexample :
    parse1 32 [⟨.LeftParen, some (1, 1)⟩, ⟨.Identifier "define", some (1, 2)⟩,
        ⟨.Identifier "a", some (1, 9)⟩, ⟨.Integer 1, some (1, 11)⟩,
        ⟨.RightParen, some (1, 12)⟩]
      = Except.ok (some (Statement.Definition
          ⟨DefinitionBody.mk "a" ⟨.Integer 1, some (1, 11)⟩, none⟩)) := rfl

/-- C4 amended: atomic expressions carry the location of their own token; a
compound node carries the parser's current location when the node is built,
which is the closing paren's location (not the opening paren's); and a
Definition parsed from `(define name expr)` is built with
`Definition::from_data` and carries no location at all. -/
theorem C4_amended :
    (∀ (loc : Option (Nat × Nat)) (n : Int),
      parse1 32 [⟨TokenData.Integer n, loc⟩]
        = Except.ok (some (Statement.Expression ⟨.Integer n, loc⟩))) ∧
    (∀ l0 l1 l2 l3 : Option (Nat × Nat),
      parse1 32 [⟨.LeftParen, l0⟩, ⟨.Identifier "f", l1⟩, ⟨.Integer 1, l2⟩,
          ⟨.RightParen, l3⟩]
        = Except.ok (some (Statement.Expression
            ⟨.ProcedureCall ⟨.Identifier "f", l1⟩ [⟨.Integer 1, l2⟩], l3⟩))) ∧
    (∀ l0 l1 l2 l3 l4 : Option (Nat × Nat),
      parse1 32 [⟨.LeftParen, l0⟩, ⟨.Identifier "define", l1⟩, ⟨.Identifier "a", l2⟩,
          ⟨.Integer 1, l3⟩, ⟨.RightParen, l4⟩]
        = Except.ok (some (Statement.Definition
            ⟨DefinitionBody.mk "a" ⟨.Integer 1, l3⟩, none⟩))) :=
  ⟨fun _ _ => rfl, fun _ _ _ _ => rfl, fun _ _ _ _ _ => rfl⟩

/-- C5 counterexample: the claim says any operand that is not a number causes
a Logic error; `=` applied to the single non-number argument `"foo"` returns
`Boolean true` without error, because the chain loop never compares a lone
argument. -/
theorem C5_counterexample :
    Base.equals [Value.String "foo"] = Except.ok (Value.Boolean true) := rfl

/-- Helper for C5: the comparison chain loop on an all-number tail computes
exactly the chained relation. -/
theorem comparisionGo_numbers (opName : String) (op : Number → Number → Bool)
    (xs : List Number) :
    ∀ a : Number,
      Base.comparisionGo opName op (Value.Number a) (xs.map Value.Number)
        = Except.ok (Value.Boolean
            (decide (List.Chain' (fun x y => op x y = true) (a :: xs)))) := by
  induction xs with
  | nil => intro a; simp [Base.comparisionGo]
  | cons b rest ih =>
    intro a
    simp only [List.map_cons, Base.comparisionGo]
    cases hop : op a b with
    | false => simp [hop, List.chain'_cons]
    | true => simp [hop, ih b, List.chain'_cons]

/-- C5 amended: for the comparison built-ins (all five are instances of the
`comparision!` macro body): zero arguments yield `Boolean true`; one argument
— numeric or not — yields `Boolean true`; an all-number argument list yields
the left-to-right pairwise chain of the operator (so the chain
short-circuits to `false` at the first violation); and a non-number operand
raises a Logic error exactly when it participates in a compared pair, in
particular whenever either of the first two of at least two arguments is not
a number. -/
theorem C5_amended :
    (∀ (opName : String) (op : Number → Number → Bool),
      Base.comparision opName op [] = Except.ok (Value.Boolean true)) ∧
    (∀ (opName : String) (op : Number → Number → Bool) (v : Value),
      Base.comparision opName op [v] = Except.ok (Value.Boolean true)) ∧
    (∀ (opName : String) (op : Number → Number → Bool) (xs : List Number),
      Base.comparision opName op (xs.map Value.Number)
        = Except.ok (Value.Boolean
            (decide (List.Chain' (fun x y => op x y = true) xs)))) ∧
    (∀ (opName : String) (op : Number → Number → Bool) (u v : Value)
        (rest : List Value),
      isNumberValue u = false ∨ isNumberValue v = false →
      Base.comparision opName op (u :: v :: rest)
        = Except.error (logicError (opName ++ " comparision can only between numbers!"))) := by
  refine ⟨fun _ _ => rfl, ?_, ?_, ?_⟩
  · intro opName op v
    cases v <;> rfl
  · intro opName op xs
    cases xs with
    | nil => simp [Base.comparision]
    | cons a rest =>
      simp only [List.map_cons, Base.comparision]
      exact comparisionGo_numbers opName op rest a
  · intro opName op u v rest h
    cases u <;> cases v <;> first | rfl | simp [isNumberValue] at h

/-- Witness for C5: its non-number-pair clause applied at `<` with a string
first operand. -/
theorem C5_witness :
    Base.comparision "<" numLt [Value.String "a", Value.Boolean true]
      = Except.error (logicError "< comparision can only between numbers!") :=
  C5_amended.2.2.2 "<" numLt (Value.String "a") (Value.Boolean true) [] (Or.inl rfl)

/-- C7: parsing the tokens of `(define (add . x) x)` yields
`Definition("add", Procedure(formals = ([], Some "x"), no body definitions,
expressions = [Identifier "x"]))` — the dotted variadic with an empty fixed
list is accepted in the define shorthand. -/
theorem C7_theorem :
    parse1 32 [tk .LeftParen, tk (.Identifier "define"), tk .LeftParen,
        tk (.Identifier "add"), tk .Period, tk (.Identifier "x"), tk .RightParen,
        tk (.Identifier "x"), tk .RightParen]
      = Except.ok (some (Statement.Definition ⟨DefinitionBody.mk "add"
          ⟨.Procedure (SchemeProcedure.mk ⟨[], some "x"⟩ [] [⟨.Identifier "x", none⟩]),
            none⟩, none⟩)) := rfl

/-- C8: parsing the token sequence `( + 1 2 3` with no closing paren fails
with a Syntax error whose message is "Unmatched Parentheses!" and whose
location is `none`. -/
theorem C8_theorem :
    parse1 32 [tk .LeftParen, tk (.Identifier "+"), tk (.Integer 1), tk (.Integer 2),
        tk (.Integer 3)]
      = Except.error (syntaxError none "Unmatched Parentheses!") := rfl

/-- C9: calling `max` with zero arguments fails with a Logic error whose
message is "min requires at least one argument!" — the message names `min`
because the `first_of_order!` macro body hard-codes it for both
instantiations. -/
theorem C9_theorem :
    Base.max [] = Except.error (logicError "min requires at least one argument!") := rfl

/-- C10: formatting `ExpressionBody::Real(s)` through the `Display`
implementation re-parses the stored string as `f64` and unwraps the result,
so it panics (modelled as `none`) for every stored string the f64 grammar
rejects; in particular it panics on `Real "abc"`, so `Display` over
`ExpressionBody` is not a total function. -/
theorem C10_theorem :
    (∀ s : String, rustF64Accepts s = false →
      fmtExpressionBody (ExpressionBody.Real s) = none) ∧
    fmtExpressionBody (ExpressionBody.Real "abc") = none := by
  constructor
  · intro s h
    simp [fmtExpressionBody, h]
  · have h : rustF64Accepts "abc" = false := rfl
    simp [fmtExpressionBody, h]

/-- Witness for C10: its universal clause applied at the concrete stored
string "abc", which the f64 grammar rejects. -/
theorem C10_witness :
    fmtExpressionBody (ExpressionBody.Real "abc") = none :=
  C10_theorem.1 "abc" rfl

end Ruschm
